import Mathlib

/-!
Verification of the ChatCraft authentication-token lifecycle and sharing
gateway (Cloudflare Pages functions).  The sharing gateway
(`functions/api/share/[[user_id]].ts`) and the login orchestrator
(`functions/login.ts`, here `handleLogin`) are embedded as pure Lean
functions.  External collaborators (the R2 object store, the token codec in
`functions/token.ts`, the GitHub identity exchange in `functions/github.ts`
and the helpers in `functions/utils.ts`) are not part of the given source
tree; their observable outcomes are passed to the handlers as explicit
`Except`/`Option` values, and the few helpers whose behaviour matters are
modelled from the specification, as marked in their doc comments.
-/

namespace ChatCraft

/-- A verified JWT payload as the gateway consumes it: the `sub` (subject /
username) claim and the optional `role` claim.  Other claims are never read
by the gateway. -/
structure Payload where
  sub : String
  role : Option String
deriving DecidableEq, Repr

/-- One entry of an R2 `list` result as used by `onRequestPut`: only the
`uploaded` timestamp (milliseconds since epoch) is consulted; the key is kept
for completeness. -/
structure R2Object where
  key : String
  uploaded : Int
deriving DecidableEq, Repr

/-- A stored R2 object as `onRequestGet` consumes it: body, the content-type
written back by `writeHttpMetadata`, and the `httpEtag`. -/
structure StoredObject where
  body : String
  contentType : Option String
  httpEtag : String
deriving DecidableEq, Repr

/-- An HTTP response as the gateway builds it.  `setCookies` records the
`(name, token)` argument pairs passed to `serializeToken` for the
`Set-Cookie` headers, in header order. -/
structure Response where
  status : Nat
  body : String
  contentType : Option String
  etag : Option String
  setCookies : List (String × String)
deriving DecidableEq, Repr

/-- Modelled from the spec: `errorResponse(status, message)` from
`functions/utils.ts` (not under the given source tree).  Per §7, API
failures return a structured error response with an explicit status code and
message, and cookies are only ever written on success paths, so the error
response carries no `Set-Cookie` header. -/
def errorResponse (status : Nat) (message : String) : Response :=
  { status := status, body := message, contentType := none, etag := none,
    setCookies := [] }

/-- A store mutation issued by a handler: the arguments of a
`CHATCRAFT_ORG_BUCKET.put` or `.delete` call.  A handler's mutation log is
empty exactly when it invoked neither. -/
inductive Mutation where
  | putKey (key : String)
  | deleteKey (key : String)
deriving DecidableEq, Repr

/-- The request data consumed by the authenticated gateway handlers:
`accessToken`/`idToken` as extracted by `getTokens` from the cookie header
(`none` when the cookie is absent), the `Content-Type` header, and the
`[[user_id]]` catch-all path parameter (`none` models a non-array value,
`some segs` an array of path segments). -/
structure GatewayRequest where
  accessToken : Option String
  idToken : Option String
  contentType : Option String
  userId : Option (List String)
deriving DecidableEq, Repr

/-- The first list is an initial segment of the second. -/
def charsStartWith : List Char → List Char → Bool
  | [], _ => true
  | _ :: _, [] => false
  | c :: cs, d :: ds => c == d && charsStartWith cs ds

/-- The second list occurs contiguously inside the first. -/
def charsContain : List Char → List Char → Bool
  | haystack, needle =>
    charsStartWith needle haystack ||
      match haystack with
      | [] => false
      | _ :: rest => charsContain rest needle

/-- `haystack.includes(needle)` of JavaScript: `needle` occurs as a
contiguous substring of `haystack`. -/
def jsIncludes (haystack needle : String) : Bool :=
  charsContain haystack.data needle.data

/-- `24 * 60 * 60 * 1000`, the `oneDayMS` constant of `onRequestPut`. -/
def oneDayMS : Int := 24 * 60 * 60 * 1000

/-- `PUT /api/share/:user/:id` (`onRequestPut`): checks cookies,
content-type, path shape, token verification, subject, role and the two
quota ceilings, then writes the body.  `verify` is the outcome of
`verifyToken(accessToken, JWT_SECRET)` (`Except.error` models a thrown
exception, `Option` the possibly-null payload), `listResult` the outcome of
`CHATCRAFT_ORG_BUCKET.list({prefix: user + "/"})`, `putResult` the outcome
of `CHATCRAFT_ORG_BUCKET.put`, and `now` the value of `new Date()` in
milliseconds.  Returns the response together with the log of store
mutations issued. -/
def onRequestPut (req : GatewayRequest) (verify : Except String (Option Payload))
    (listResult : Except String (List R2Object)) (putResult : Except String Unit)
    (now : Int) : Response × List Mutation :=
  match req.accessToken with
  | none => (errorResponse 403 "Missing Access Token", [])
  | some accessToken =>
    match req.idToken with
    | none => (errorResponse 403 "Missing ID Token", [])
    | some idToken =>
      if !(match req.contentType with
           | none => false
           | some ct => jsIncludes ct "application/json") then
        (errorResponse 400 "Expected JSON", [])
      else
        match req.userId with
        | some [user, id] =>
          match verify with
          | Except.error e => (errorResponse 400 e, [])
          | Except.ok none => (errorResponse 403 "Invalid Access Token", [])
          | Except.ok (some payload) =>
            if user ≠ payload.sub then
              (errorResponse 403 "Access Token does not match username", [])
            else if payload.role ≠ some "api" then
              (errorResponse 403 "Access Token missing 'api' role", [])
            else
              match listResult with
              | Except.error e => (errorResponse 400 e, [])
              | Except.ok objects =>
                if objects.length > 500 then
                  (errorResponse 403 "Exceeded total share limit", [])
                else
                  let recentShares := objects.filter fun o =>
                    now - o.uploaded < oneDayMS
                  if recentShares.length > 10 then
                    (errorResponse 429 "Too many shares in a 24-hour period", [])
                  else
                    let key := user ++ "/" ++ id
                    match putResult with
                    | Except.error e =>
                      (errorResponse 500 ("Unable to share chat: " ++ e),
                       [Mutation.putKey key])
                    | Except.ok _ =>
                      ({ status := 200, body := "Chat shared successfully",
                         contentType := some "application/json; charset=utf-8",
                         etag := none,
                         setCookies := [("access_token", accessToken),
                                        ("id_token", idToken)] },
                       [Mutation.putKey key])
        | _ => (errorResponse 400
                 "Expected share URL of the form /api/share/{user}/{id}", [])

/-- `GET /api/share/:user/:id` (`onRequestGet`): public, consumes no cookies
and no token; validates the path shape, then fetches the object.
`getResult` is the outcome of `CHATCRAFT_ORG_BUCKET.get(key)`. -/
def onRequestGet (userId : Option (List String))
    (getResult : Except String (Option StoredObject)) :
    Response × List Mutation :=
  match userId with
  | some [user, id] =>
    match getResult with
    | Except.error e => (errorResponse 500 ("Unable to get chat: " ++ e), [])
    | Except.ok none =>
      (errorResponse 404 (user ++ "/" ++ id ++ " not found"), [])
    | Except.ok (some object) =>
      ({ status := 200, body := object.body,
         contentType := object.contentType, etag := some object.httpEtag,
         setCookies := [] }, [])
  | _ => (errorResponse 400
           "Expected share URL of the form /api/share/{user}/{id}", [])

/-- `DELETE /api/share/:user/:id` (`onRequestDelete`): checks cookies and
path shape, verifies the token (`user !== payload?.sub` and
`payload?.role !== "api"` — note the optional chaining: a null payload fails
the subject comparison), then deletes the key unconditionally, with no
existence check.  `deleteResult` is the outcome of
`CHATCRAFT_ORG_BUCKET.delete(key)`. -/
def onRequestDelete (req : GatewayRequest)
    (verify : Except String (Option Payload))
    (deleteResult : Except String Unit) : Response × List Mutation :=
  match req.accessToken with
  | none => (errorResponse 403 "Missing Access Token", [])
  | some accessToken =>
    match req.idToken with
    | none => (errorResponse 403 "Missing ID Token", [])
    | some idToken =>
      match req.userId with
      | some [user, id] =>
        match verify with
        | Except.error e => (errorResponse 400 e, [])
        | Except.ok payload =>
          if (payload.map Payload.sub) ≠ some user then
            (errorResponse 403 "Access Token does not match username", [])
          else if (payload.bind Payload.role) ≠ some "api" then
            (errorResponse 403 "Access Token missing 'api' role", [])
          else
            let key := user ++ "/" ++ id
            match deleteResult with
            | Except.error e =>
              (errorResponse 500 ("Unable to share chat: " ++ e),
               [Mutation.deleteKey key])
            | Except.ok _ =>
              ({ status := 200, body := "Chat deleted successfully",
                 contentType := some "application/json; charset=utf-8",
                 etag := none,
                 setCookies := [("access_token", accessToken),
                                ("id_token", idToken)] },
               [Mutation.deleteKey key])
      | _ => (errorResponse 400
               "Expected share URL of the form /api/share/{user}/{id}", [])

/-- The GitHub user profile as `handleLogin` consumes it: only `username`
is read by the orchestrator; the remaining profile fields are opaque. -/
structure GitHubUser where
  username : String
  profile : List (String × String)
deriving DecidableEq, Repr

/-- The outcomes of the external calls `handleLogin` awaits, in program
order: `requestAccessToken(code, CLIENT_ID, CLIENT_SECRET)` from
`functions/github.ts`, `requestUserInfo(ghAccessToken)`, and the two
`createToken(...)` calls from `functions/token.ts` minting the id token
(profile claims) and the access token (`{role: "api"}`).  None of these
live under the given source tree; `Except.error` models a thrown/rejected
call. -/
structure LoginEnv where
  requestAccessToken : String → Except String String
  requestUserInfo : String → Except String GitHubUser
  createIdToken : GitHubUser → Except String String
  createAccessToken : String → Except String String

/-- A response as `handleLogin` builds it: always a redirect, so we record
the status, the `Location` target, the `(name, token)` pairs passed to
`serializeToken` for `Set-Cookie` headers, and the body
(`Response.redirect` and `new Response(null, ...)` both carry none). -/
structure LoginResponse where
  status : Nat
  location : String
  setCookies : List (String × String)
  body : Option String
deriving DecidableEq, Repr

/-- Modelled from the spec: `buildUrl(base, query)` from
`functions/utils.ts` (not under the given source tree) renders the provider
authorization URL with the query parameters attached (§6: redirect to the
provider authorization URL with `client_id` and optional `state`). -/
def buildUrl (base : String) (query : List (String × String)) : String :=
  base ++ "?" ++ String.intercalate "&" (query.map fun p => p.1 ++ "=" ++ p.2)

/-- The awaited pipeline of the `Completing` branch of `handleLogin`:
exchange the code, fetch the profile, mint the id token, mint the access
token.  The first failure aborts the rest. -/
def loginPipeline (env : LoginEnv) (code : String) :
    Except String (GitHubUser × String × String) := do
  let ghAccessToken ← env.requestAccessToken code
  let user ← env.requestUserInfo ghAccessToken
  let idToken ← env.createIdToken user
  let accessToken ← env.createAccessToken user.username
  pure (user, idToken, accessToken)

/-- `handleLogin` from the login function: with no `code`, redirect (302) to
the GitHub authorization UI, passing `chatId` through as `state` when
present; with a `code`, run the pipeline and either set both cookies and
redirect to `/c/{chatId}` or `/`, or, on any failure, redirect to the root
carrying the `github_login_error` flag with no cookies. -/
def handleLogin (code : Option String) (chatId : Option String)
    (clientId : String) (env : LoginEnv) : LoginResponse :=
  match code with
  | none =>
    { status := 302,
      location := buildUrl "https://github.com/login/oauth/authorize"
        (match chatId with
         | some cid => [("client_id", clientId), ("state", cid)]
         | none => [("client_id", clientId)]),
      setCookies := [], body := none }
  | some c =>
    match loginPipeline env c with
    | Except.error _ =>
      { status := 302, location := "https://chatcraft.org/?github_login_error",
        setCookies := [], body := none }
    | Except.ok (_, idToken, accessToken) =>
      { status := 302,
        location := (match chatId with
                     | some cid => "https://chatcraft.org/c/" ++ cid
                     | none => "https://chatcraft.org/"),
        setCookies := [("access_token", accessToken), ("id_token", idToken)],
        body := none }

/-- R2 store contents as a key-addressed association list, and the effect of
a handler's mutation log on it: `put` inserts/overwrites the key, `delete`
removes it (R2 delete succeeds whether or not the key exists). -/
def applyMutation (store : List (String × StoredObject)) :
    Mutation → List (String × StoredObject)
  | Mutation.putKey k =>
    (k, ⟨"", none, ""⟩) :: store.filter fun kv => kv.1 ≠ k
  | Mutation.deleteKey k => store.filter fun kv => kv.1 ≠ k

/-- `onRequestDelete` run against actual store contents: the response, and
the store after the issued mutations. -/
def runRequestDelete (req : GatewayRequest)
    (verify : Except String (Option Payload))
    (store : List (String × StoredObject)) :
    Response × List (String × StoredObject) :=
  let r := onRequestDelete req verify (Except.ok ())
  (r.1, r.2.foldl applyMutation store)

/-! Concrete fixtures used by witnesses and counterexamples. -/

/-- A well-formed authenticated request for `alice/chat1` with both cookies
and a JSON content-type. -/
def aliceReq : GatewayRequest :=
  { accessToken := some "tokA", idToken := some "tokI",
    contentType := some "application/json",
    userId := some ["alice", "chat1"] }

/-- A verified payload for subject `alice` with the `api` role. -/
def alicePayload : Payload := { sub := "alice", role := some "api" }

/-- A request identical to `aliceReq` but addressing `bob/chat1`. -/
def bobPathReq : GatewayRequest :=
  { aliceReq with userId := some ["bob", "chat1"] }

/-- A PUT/DELETE request with a one-segment key and no cookies at all. -/
def bareBadPathReq : GatewayRequest :=
  { accessToken := none, idToken := none, contentType := none,
    userId := some ["alice"] }

/-- A request with both cookies and a JSON content-type but a one-segment
key. -/
def authedBadPathReq : GatewayRequest :=
  { aliceReq with userId := some ["alice"] }

/-- A request identical to `aliceReq` but declaring a non-JSON
content-type. -/
def textPlainReq : GatewayRequest :=
  { aliceReq with contentType := some "text/plain" }

/-- A request addressing `bob/chat1` with both cookies but a non-JSON
content-type. -/
def bobTextReq : GatewayRequest :=
  { bobPathReq with contentType := some "text/plain" }

/-- A listing of exactly 500 objects under `alice/`, all uploaded at time
0 (far outside any 24-hour window of interest). -/
def fullListing : List R2Object :=
  List.replicate 500 { key := "alice/old", uploaded := 0 }

/-- A listing of exactly 10 objects under `alice/`, all uploaded at the
current instant `sampleNow` (inside the trailing 24-hour window). -/
def tenRecent : List R2Object :=
  List.replicate 10 { key := "alice/new", uploaded := 999999999999 }

/-- A sample current time (milliseconds since epoch). -/
def sampleNow : Int := 999999999999

/-- A login environment in which every external call succeeds. -/
def okLoginEnv : LoginEnv :=
  { requestAccessToken := fun _ => Except.ok "gh-token",
    requestUserInfo := fun _ => Except.ok { username := "alice", profile := [] },
    createIdToken := fun _ => Except.ok "jwt-id",
    createAccessToken := fun _ => Except.ok "jwt-access" }

/-- A login environment in which the code exchange fails. -/
def failLoginEnv : LoginEnv :=
  { okLoginEnv with requestAccessToken := fun _ => Except.error "bad code" }

/-! Helper lemmas shared by several claim theorems: a PUT or DELETE that
answers 200 must have passed every check, and its response and mutation log
have the success shape. -/

/-- A PUT answering 200 passed every check: both cookies were present, the
content-type declared JSON, the path had two segments, the token verified
to a payload whose subject is the owner and whose role is `api`, the
listing and the write succeeded, and the response/mutations have the
success shape. -/
theorem put_200_shape (req : GatewayRequest)
    (verify : Except String (Option Payload))
    (listResult : Except String (List R2Object))
    (putResult : Except String Unit) (now : Int)
    (h : (onRequestPut req verify listResult putResult now).1.status = 200) :
    ∃ at' it' ct user id payload objects,
      req.accessToken = some at' ∧ req.idToken = some it' ∧
      req.contentType = some ct ∧ jsIncludes ct "application/json" = true ∧
      req.userId = some [user, id] ∧ verify = Except.ok (some payload) ∧
      payload.sub = user ∧ payload.role = some "api" ∧
      listResult = Except.ok objects ∧ putResult = Except.ok () ∧
      onRequestPut req verify listResult putResult now =
        ({ status := 200, body := "Chat shared successfully",
           contentType := some "application/json; charset=utf-8", etag := none,
           setCookies := [("access_token", at'), ("id_token", it')] },
         [Mutation.putKey (user ++ "/" ++ id)]) := by
  rcases hat : req.accessToken with _ | at'
  · simp [onRequestPut, hat, errorResponse] at h
  rcases hit : req.idToken with _ | it'
  · simp [onRequestPut, hat, hit, errorResponse] at h
  rcases hct : req.contentType with _ | ct
  · simp [onRequestPut, hat, hit, hct, errorResponse] at h
  cases hjson : jsIncludes ct "application/json" with
  | false => simp [onRequestPut, hat, hit, hct, hjson, errorResponse] at h
  | true =>
  rcases hu : req.userId with _ | (_ | ⟨user, _ | ⟨id, _ | ⟨w, t⟩⟩⟩)
  · simp [onRequestPut, hat, hit, hct, hjson, hu, errorResponse] at h
  · simp [onRequestPut, hat, hit, hct, hjson, hu, errorResponse] at h
  · simp [onRequestPut, hat, hit, hct, hjson, hu, errorResponse] at h
  case some.some.true.some.cons.cons.cons =>
    simp [onRequestPut, hat, hit, hct, hjson, hu, errorResponse] at h
  rcases hv : verify with e | (_ | payload)
  · simp [onRequestPut, hat, hit, hct, hjson, hu, hv, errorResponse] at h
  · simp [onRequestPut, hat, hit, hct, hjson, hu, hv, errorResponse] at h
  by_cases hsub : user = payload.sub
  case neg =>
    simp [onRequestPut, hat, hit, hct, hjson, hu, hv, hsub, errorResponse] at h
  by_cases hrole : payload.role = some "api"
  case neg =>
    simp [onRequestPut, hat, hit, hct, hjson, hu, hv, hsub, hrole,
      errorResponse] at h
  rcases hlist : listResult with e | objects
  · simp [onRequestPut, hat, hit, hct, hjson, hu, hv, hsub, hrole, hlist,
      errorResponse] at h
  by_cases h500 : objects.length > 500
  case pos =>
    simp [onRequestPut, hat, hit, hct, hjson, hu, hv, hsub, hrole, hlist,
      h500, errorResponse] at h
  by_cases h10 :
    (objects.filter fun o => now - o.uploaded < oneDayMS).length > 10
  case pos =>
    simp [onRequestPut, hat, hit, hct, hjson, hu, hv, hsub, hrole, hlist,
      h500, h10, errorResponse] at h
  rcases hput : putResult with e | u
  · simp [onRequestPut, hat, hit, hct, hjson, hu, hv, hsub, hrole, hlist,
      h500, h10, hput, errorResponse] at h
  cases u
  exact ⟨at', it', ct, user, id, payload, objects, rfl, rfl, rfl, hjson, rfl,
    rfl, hsub.symm, hrole, rfl, rfl,
    by simp [onRequestPut, hat, hit, hct, hjson, hu, hv, hsub, hrole, hlist,
      h500, h10, hput]⟩

/-- A DELETE answering 200 passed every check: both cookies were present,
the path had two segments, the token verified to a payload whose subject is
the owner and whose role is `api`, the delete succeeded, and the
response/mutations have the success shape. -/
theorem delete_200_shape (req : GatewayRequest)
    (verify : Except String (Option Payload))
    (deleteResult : Except String Unit)
    (h : (onRequestDelete req verify deleteResult).1.status = 200) :
    ∃ at' it' user id payload,
      req.accessToken = some at' ∧ req.idToken = some it' ∧
      req.userId = some [user, id] ∧ verify = Except.ok (some payload) ∧
      payload.sub = user ∧ payload.role = some "api" ∧
      deleteResult = Except.ok () ∧
      onRequestDelete req verify deleteResult =
        ({ status := 200, body := "Chat deleted successfully",
           contentType := some "application/json; charset=utf-8", etag := none,
           setCookies := [("access_token", at'), ("id_token", it')] },
         [Mutation.deleteKey (user ++ "/" ++ id)]) := by
  rcases hat : req.accessToken with _ | at'
  · simp [onRequestDelete, hat, errorResponse] at h
  rcases hit : req.idToken with _ | it'
  · simp [onRequestDelete, hat, hit, errorResponse] at h
  rcases hu : req.userId with _ | (_ | ⟨user, _ | ⟨id, _ | ⟨w, t⟩⟩⟩)
  · simp [onRequestDelete, hat, hit, hu, errorResponse] at h
  · simp [onRequestDelete, hat, hit, hu, errorResponse] at h
  · simp [onRequestDelete, hat, hit, hu, errorResponse] at h
  case some.some.some.cons.cons.cons =>
    simp [onRequestDelete, hat, hit, hu, errorResponse] at h
  rcases hv : verify with e | (_ | payload)
  · simp [onRequestDelete, hat, hit, hu, hv, errorResponse] at h
  · simp [onRequestDelete, hat, hit, hu, hv, errorResponse] at h
  by_cases hsub : payload.sub = user
  case neg =>
    simp [onRequestDelete, hat, hit, hu, hv, Option.map, hsub,
      errorResponse] at h
  by_cases hrole : payload.role = some "api"
  case neg =>
    simp [onRequestDelete, hat, hit, hu, hv, Option.map, Option.bind, hsub,
      hrole, errorResponse] at h
  rcases hdel : deleteResult with e | u
  · simp [onRequestDelete, hat, hit, hu, hv, Option.map, Option.bind, hsub,
      hrole, hdel, errorResponse] at h
  cases u
  exact ⟨at', it', user, id, payload, rfl, rfl, rfl, rfl, hsub, hrole, rfl,
    by simp [onRequestDelete, hat, hit, hu, hv, Option.map, Option.bind,
      hsub, hrole, hdel]⟩

/-- A PUT that issues any store mutation passed every check before the
write: in particular the token verified to a payload whose subject is the
owner segment and whose role is `api`, and the single mutation is a `put`
of the owner's own key. -/
theorem put_mutates_shape (req : GatewayRequest)
    (verify : Except String (Option Payload))
    (listResult : Except String (List R2Object))
    (putResult : Except String Unit) (now : Int)
    (h : (onRequestPut req verify listResult putResult now).2 ≠ []) :
    ∃ at' it' ct user id payload objects,
      req.accessToken = some at' ∧ req.idToken = some it' ∧
      req.contentType = some ct ∧ jsIncludes ct "application/json" = true ∧
      req.userId = some [user, id] ∧ verify = Except.ok (some payload) ∧
      payload.sub = user ∧ payload.role = some "api" ∧
      listResult = Except.ok objects ∧ ¬ objects.length > 500 ∧
      ¬ (objects.filter fun o => now - o.uploaded < oneDayMS).length > 10 ∧
      (onRequestPut req verify listResult putResult now).2 =
        [Mutation.putKey (user ++ "/" ++ id)] := by
  rcases hat : req.accessToken with _ | at'
  · simp [onRequestPut, hat] at h
  rcases hit : req.idToken with _ | it'
  · simp [onRequestPut, hat, hit] at h
  rcases hct : req.contentType with _ | ct
  · simp [onRequestPut, hat, hit, hct] at h
  cases hjson : jsIncludes ct "application/json" with
  | false => simp [onRequestPut, hat, hit, hct, hjson] at h
  | true =>
  rcases hu : req.userId with _ | (_ | ⟨user, _ | ⟨id, _ | ⟨w, t⟩⟩⟩)
  · simp [onRequestPut, hat, hit, hct, hjson, hu] at h
  · simp [onRequestPut, hat, hit, hct, hjson, hu] at h
  · simp [onRequestPut, hat, hit, hct, hjson, hu] at h
  case some.some.true.some.cons.cons.cons =>
    simp [onRequestPut, hat, hit, hct, hjson, hu] at h
  rcases hv : verify with e | (_ | payload)
  · simp [onRequestPut, hat, hit, hct, hjson, hu, hv] at h
  · simp [onRequestPut, hat, hit, hct, hjson, hu, hv] at h
  by_cases hsub : user = payload.sub
  case neg =>
    simp [onRequestPut, hat, hit, hct, hjson, hu, hv, hsub] at h
  by_cases hrole : payload.role = some "api"
  case neg =>
    simp [onRequestPut, hat, hit, hct, hjson, hu, hv, hsub, hrole] at h
  rcases hlist : listResult with e | objects
  · simp [onRequestPut, hat, hit, hct, hjson, hu, hv, hsub, hrole, hlist] at h
  by_cases h500 : objects.length > 500
  case pos =>
    simp [onRequestPut, hat, hit, hct, hjson, hu, hv, hsub, hrole, hlist,
      h500] at h
  by_cases h10 :
    (objects.filter fun o => now - o.uploaded < oneDayMS).length > 10
  case pos =>
    simp [onRequestPut, hat, hit, hct, hjson, hu, hv, hsub, hrole, hlist,
      h500, h10] at h
  refine ⟨at', it', ct, user, id, payload, objects, rfl, rfl, rfl, hjson,
    rfl, rfl, hsub.symm, hrole, rfl, h500, h10, ?_⟩
  rcases hput : putResult with e | u
  · simp [onRequestPut, hat, hit, hct, hjson, hu, hv, hsub, hrole, hlist,
      h500, h10, hput]
  · simp [onRequestPut, hat, hit, hct, hjson, hu, hv, hsub, hrole, hlist,
      h500, h10, hput]

/-- A DELETE that issues any store mutation passed every check before the
delete: the token verified to a payload whose subject is the owner segment
and whose role is `api`, and the single mutation is a `delete` of the
owner's own key. -/
theorem delete_mutates_shape (req : GatewayRequest)
    (verify : Except String (Option Payload))
    (deleteResult : Except String Unit)
    (h : (onRequestDelete req verify deleteResult).2 ≠ []) :
    ∃ at' it' user id payload,
      req.accessToken = some at' ∧ req.idToken = some it' ∧
      req.userId = some [user, id] ∧ verify = Except.ok (some payload) ∧
      payload.sub = user ∧ payload.role = some "api" ∧
      (onRequestDelete req verify deleteResult).2 =
        [Mutation.deleteKey (user ++ "/" ++ id)] := by
  rcases hat : req.accessToken with _ | at'
  · simp [onRequestDelete, hat] at h
  rcases hit : req.idToken with _ | it'
  · simp [onRequestDelete, hat, hit] at h
  rcases hu : req.userId with _ | (_ | ⟨user, _ | ⟨id, _ | ⟨w, t⟩⟩⟩)
  · simp [onRequestDelete, hat, hit, hu] at h
  · simp [onRequestDelete, hat, hit, hu] at h
  · simp [onRequestDelete, hat, hit, hu] at h
  case some.some.some.cons.cons.cons =>
    simp [onRequestDelete, hat, hit, hu] at h
  rcases hv : verify with e | (_ | payload)
  · simp [onRequestDelete, hat, hit, hu, hv] at h
  · simp [onRequestDelete, hat, hit, hu, hv] at h
  by_cases hsub : payload.sub = user
  case neg =>
    simp [onRequestDelete, hat, hit, hu, hv, Option.map, hsub] at h
  by_cases hrole : payload.role = some "api"
  case neg =>
    simp [onRequestDelete, hat, hit, hu, hv, Option.map, Option.bind, hsub,
      hrole] at h
  refine ⟨at', it', user, id, payload, rfl, rfl, rfl, rfl, hsub, hrole, ?_⟩
  rcases hdel : deleteResult with e | u
  · simp [onRequestDelete, hat, hit, hu, hv, Option.map, Option.bind, hsub,
      hrole, hdel]
  · simp [onRequestDelete, hat, hit, hu, hv, Option.map, Option.bind, hsub,
      hrole, hdel]

/-! Claim theorems. -/

/-- C6: for every input (code present or absent, any exchange outcome), the
login orchestrator returns a response with status 302 and no body — it
never returns a rendered body in any branch. -/
theorem handleLogin_always_redirects (code chatId : Option String)
    (clientId : String) (env : LoginEnv) :
    (handleLogin code chatId clientId env).status = 302 ∧
    (handleLogin code chatId clientId env).body = none := by
  cases code with
  | none => exact ⟨rfl, rfl⟩
  | some c =>
    cases h : loginPipeline env c with
    | error e => simp [handleLogin, h]
    | ok v => simp [handleLogin, h]

/-- C6 witness: at a concrete failing exchange, the orchestrator's response
is a bodyless 302. -/
theorem handleLogin_always_redirects_witness :
    (handleLogin (some "c0") none "cid" failLoginEnv).status = 302 ∧
    (handleLogin (some "c0") none "cid" failLoginEnv).body = none :=
  handleLogin_always_redirects (some "c0") none "cid" failLoginEnv

/-- C7: when a code is present and any step of the exchange / profile fetch
/ token creation pipeline fails, `handleLogin` returns a 302 redirect to
the application root carrying the `github_login_error` indicator, with no
`Set-Cookie` headers. -/
theorem handleLogin_failure_no_cookies (env : LoginEnv) (c : String)
    (chatId : Option String) (clientId : String) (e : String)
    (h : loginPipeline env c = Except.error e) :
    handleLogin (some c) chatId clientId env =
      { status := 302, location := "https://chatcraft.org/?github_login_error",
        setCookies := [], body := none } := by
  simp [handleLogin, h]

/-- C7 witness: a failing code exchange at concrete inputs yields the
error-flagged root redirect with no cookies. -/
theorem handleLogin_failure_no_cookies_witness :
    handleLogin (some "c0") (some "chat9") "cid" failLoginEnv =
      { status := 302, location := "https://chatcraft.org/?github_login_error",
        setCookies := [], body := none } :=
  handleLogin_failure_no_cookies failLoginEnv "c0" (some "chat9") "cid"
    "bad code" rfl

/-- C8: the public Read handler consumes no token and never sets cookies
(and never mutates the store); for a well-formed two-segment key it returns
404 when the object is absent, 200 with the stored body, content-type and
etag when present, and 500 with the underlying message on storage
failure. -/
theorem onRequestGet_spec :
    (∀ (userId : Option (List String))
       (getResult : Except String (Option StoredObject)),
       (onRequestGet userId getResult).1.setCookies = [] ∧
       (onRequestGet userId getResult).2 = []) ∧
    (∀ (user id : String),
       onRequestGet (some [user, id]) (Except.ok none) =
         (errorResponse 404 (user ++ "/" ++ id ++ " not found"), [])) ∧
    (∀ (user id : String) (object : StoredObject),
       onRequestGet (some [user, id]) (Except.ok (some object)) =
         ({ status := 200, body := object.body,
            contentType := object.contentType,
            etag := some object.httpEtag, setCookies := [] }, [])) ∧
    (∀ (user id e : String),
       onRequestGet (some [user, id]) (Except.error e) =
         (errorResponse 500 ("Unable to get chat: " ++ e), [])) := by
  refine ⟨?_, fun user id => rfl, fun user id object => rfl,
    fun user id e => rfl⟩
  intro userId getResult
  unfold onRequestGet
  rcases userId with _ | (_ | ⟨u, _ | ⟨i, _ | ⟨v, l⟩⟩⟩)
  · exact ⟨rfl, rfl⟩
  · exact ⟨rfl, rfl⟩
  · exact ⟨rfl, rfl⟩
  · rcases getResult with e | (_ | o)
    · exact ⟨rfl, rfl⟩
    · exact ⟨rfl, rfl⟩
    · exact ⟨rfl, rfl⟩
  · exact ⟨rfl, rfl⟩

/-- C9: a Delete passing all cookie, path-shape, subject and role checks
returns 200 with "Chat deleted successfully" against EVERY store — the
delete is issued unconditionally with no existence check, so the response
is identical whether or not an object exists under `(user, id)`, and the
resulting store is always the original minus that key. -/
theorem onRequestDelete_ignores_existence (req : GatewayRequest)
    (verify : Except String (Option Payload)) (at' it' user id : String)
    (p : Payload) (hat : req.accessToken = some at')
    (hit : req.idToken = some it') (hu : req.userId = some [user, id])
    (hv : verify = Except.ok (some p)) (hsub : p.sub = user)
    (hrole : p.role = some "api") :
    ∀ store : List (String × StoredObject),
      (runRequestDelete req verify store).1 =
        { status := 200, body := "Chat deleted successfully",
          contentType := some "application/json; charset=utf-8", etag := none,
          setCookies := [("access_token", at'), ("id_token", it')] } ∧
      (runRequestDelete req verify store).2 =
        store.filter fun kv => kv.1 ≠ user ++ "/" ++ id := by
  intro store
  simp [runRequestDelete, onRequestDelete, hat, hit, hu, hv, hsub, hrole,
    applyMutation]

/-- C9 witness: deleting `alice/chat1` from an empty store (the object does
not exist) still answers 200 "Chat deleted successfully". -/
theorem onRequestDelete_ignores_existence_witness :
    (runRequestDelete aliceReq (Except.ok (some alicePayload)) []).1 =
      { status := 200, body := "Chat deleted successfully",
        contentType := some "application/json; charset=utf-8", etag := none,
        setCookies := [("access_token", "tokA"), ("id_token", "tokI")] } ∧
    (runRequestDelete aliceReq (Except.ok (some alicePayload)) []).2 =
      List.filter (fun kv => kv.1 ≠ "alice" ++ "/" ++ "chat1") [] :=
  onRequestDelete_ignores_existence aliceReq (Except.ok (some alicePayload))
    "tokA" "tokI" "alice" "chat1" alicePayload rfl rfl rfl rfl rfl rfl []

/-- C10: whenever a PUT or a DELETE answers 200, its two `Set-Cookie`
headers serialize exactly the access-token and id-token strings extracted
from the request's cookies, in that order — the token values are passed
through unchanged, only the cookie envelope is rebuilt around them. -/
theorem success_cookies_reserialize_request_tokens (req : GatewayRequest)
    (verify : Except String (Option Payload))
    (listResult : Except String (List R2Object))
    (putResult deleteResult : Except String Unit) (now : Int) :
    ((onRequestPut req verify listResult putResult now).1.status = 200 →
      ∃ at' it', req.accessToken = some at' ∧ req.idToken = some it' ∧
        (onRequestPut req verify listResult putResult now).1.setCookies =
          [("access_token", at'), ("id_token", it')]) ∧
    ((onRequestDelete req verify deleteResult).1.status = 200 →
      ∃ at' it', req.accessToken = some at' ∧ req.idToken = some it' ∧
        (onRequestDelete req verify deleteResult).1.setCookies =
          [("access_token", at'), ("id_token", it')]) := by
  constructor
  · intro h
    obtain ⟨at', it', ct, user, id, payload, objects, hat, hit, _, _, _, _,
      _, _, _, _, heq⟩ :=
      put_200_shape req verify listResult putResult now h
    exact ⟨at', it', hat, hit, by rw [heq]⟩
  · intro h
    obtain ⟨at', it', user, id, payload, hat, hit, _, _, _, _, _, heq⟩ :=
      delete_200_shape req verify deleteResult h
    exact ⟨at', it', hat, hit, by rw [heq]⟩

/-- C10 witness: a concrete successful PUT re-serializes the request's own
token strings. -/
theorem success_cookies_reserialize_request_tokens_witness :
    ∃ at' it', aliceReq.accessToken = some at' ∧ aliceReq.idToken = some it' ∧
      (onRequestPut aliceReq (Except.ok (some alicePayload)) (Except.ok [])
        (Except.ok ()) 0).1.setCookies =
        [("access_token", at'), ("id_token", it')] :=
  (success_cookies_reserialize_request_tokens aliceReq
    (Except.ok (some alicePayload)) (Except.ok []) (Except.ok ())
    (Except.ok ()) 0).1 (by decide)

/-- C2 counterexample: the claim "every request with a malformed or
expired access token draws Forbidden from each mutating operation" fails
at concrete in-scope inputs: with a null-verifying token, a DELETE whose
key has one segment is answered 400 "Expected share URL..." (the
path-shape check precedes verification), and a PUT declaring
`text/plain` is answered 400 "Expected JSON" (the content-type check
precedes verification) — BadRequest, not Forbidden, in both cases. -/
theorem invalid_token_badrequest_counterexample :
    (onRequestDelete authedBadPathReq (Except.ok none) (Except.ok ())).1 =
      errorResponse 400
        "Expected share URL of the form /api/share/{user}/{id}" ∧
    (onRequestDelete authedBadPathReq (Except.ok none)
      (Except.ok ())).1.status ≠ 403 ∧
    (onRequestPut textPlainReq (Except.ok none) (Except.ok [])
      (Except.ok ()) 0).1 = errorResponse 400 "Expected JSON" ∧
    (onRequestPut textPlainReq (Except.ok none) (Except.ok [])
      (Except.ok ()) 0).1.status ≠ 403 := by
  refine ⟨by decide, by decide, by decide, by decide⟩

/-- C2 (amended): when access-token verification fails in-band (per §4.1
the token codec reports malformed/invalid/expired tokens as a failure
value, which the gateway observes as a null payload), neither PUT nor
DELETE issues any store mutation — on any request shape whatsoever — and
any such request that reaches the verification step (cookies present,
JSON content-type for PUT, two-segment key) is answered with a 403
Forbidden error. -/
theorem invalid_token_forbidden_unmutated (req : GatewayRequest)
    (verify : Except String (Option Payload))
    (listResult : Except String (List R2Object))
    (putResult deleteResult : Except String Unit) (now : Int)
    (hv : verify = Except.ok none) :
    (onRequestPut req verify listResult putResult now).2 = [] ∧
    (onRequestDelete req verify deleteResult).2 = [] ∧
    (∀ at' it' ct user id, req.accessToken = some at' →
      req.idToken = some it' → req.contentType = some ct →
      jsIncludes ct "application/json" = true →
      req.userId = some [user, id] →
      (onRequestPut req verify listResult putResult now).1 =
        errorResponse 403 "Invalid Access Token") ∧
    (∀ at' it' user id, req.accessToken = some at' →
      req.idToken = some it' → req.userId = some [user, id] →
      (onRequestDelete req verify deleteResult).1 =
        errorResponse 403 "Access Token does not match username") := by
  refine ⟨?_, ?_, ?_, ?_⟩
  · by_contra h
    obtain ⟨_, _, _, _, _, p, _, _, _, _, _, _, hv', _⟩ :=
      put_mutates_shape req verify listResult putResult now h
    rw [hv] at hv'
    exact Option.noConfusion (Except.ok.inj hv')
  · by_contra h
    obtain ⟨_, _, _, _, p, _, _, _, hv', _⟩ :=
      delete_mutates_shape req verify deleteResult h
    rw [hv] at hv'
    exact Option.noConfusion (Except.ok.inj hv')
  · intro at' it' ct user id hat hit hct hjson hu
    simp [onRequestPut, hat, hit, hct, hjson, hu, hv]
  · intro at' it' user id hat hit hu
    simp [onRequestDelete, hat, hit, hu, hv, Option.map, errorResponse]

/-- C2 witness: at a concrete well-formed request whose token verifies to a
null payload, PUT answers 403 "Invalid Access Token", DELETE answers 403
"Access Token does not match username", and neither mutates the store. -/
theorem invalid_token_forbidden_unmutated_witness :
    (onRequestPut aliceReq (Except.ok none) (Except.ok [])
      (Except.ok ()) 0).1 = errorResponse 403 "Invalid Access Token" ∧
    (onRequestPut aliceReq (Except.ok none) (Except.ok [])
      (Except.ok ()) 0).2 = [] ∧
    (onRequestDelete aliceReq (Except.ok none) (Except.ok ())).1 =
      errorResponse 403 "Access Token does not match username" ∧
    (onRequestDelete aliceReq (Except.ok none) (Except.ok ())).2 = [] := by
  have h := invalid_token_forbidden_unmutated aliceReq (Except.ok none)
    (Except.ok []) (Except.ok ()) (Except.ok ()) 0 rfl
  exact ⟨h.2.2.1 "tokA" "tokI" "application/json" "alice" "chat1" rfl rfl rfl
      (by decide) rfl,
    h.1, h.2.2.2 "tokA" "tokI" "alice" "chat1" rfl rfl rfl, h.2.1⟩

/-- C4 counterexample: the claim "any request whose token subject differs
from owner, or whose role is not api, is rejected with Forbidden" fails
at a concrete in-scope input: a PUT addressing `bob/chat1` carrying a
verified token for `alice` (role `api`) but a `text/plain` content-type
is answered 400 "Expected JSON" — the content-type check precedes
verification — not Forbidden (it still mutates nothing). -/
theorem ownership_forbidden_counterexample :
    (onRequestPut bobTextReq (Except.ok (some alicePayload)) (Except.ok [])
      (Except.ok ()) 0).1 = errorResponse 400 "Expected JSON" ∧
    (onRequestPut bobTextReq (Except.ok (some alicePayload)) (Except.ok [])
      (Except.ok ()) 0).1.status ≠ 403 ∧
    (onRequestPut bobTextReq (Except.ok (some alicePayload)) (Except.ok [])
      (Except.ok ()) 0).2 = [] := by
  refine ⟨by decide, by decide, by decide⟩

/-- C4 (amended): Create and Delete succeed, and more generally issue any
store mutation at all, only when the verified token payload exists, its
subject equals the owner path segment, and its role claim is `api` — and
every mutation targets the subject's own prefix, so a token for `alice`
can never mutate an object under `bob/`; a verified payload whose
subject differs from the owner or whose role is not `api` mutates nothing,
and is answered 403 once the preceding cookie (and, for PUT, content-type)
checks pass — requests failing those earlier checks are rejected earlier,
still without mutation. -/
theorem ownership_role_invariant (req : GatewayRequest)
    (verify : Except String (Option Payload))
    (listResult : Except String (List R2Object))
    (putResult deleteResult : Except String Unit) (now : Int)
    (user id : String) (hu : req.userId = some [user, id]) :
    ((onRequestPut req verify listResult putResult now).1.status = 200 →
      ∃ p, verify = Except.ok (some p) ∧ p.sub = user ∧
        p.role = some "api") ∧
    ((onRequestDelete req verify deleteResult).1.status = 200 →
      ∃ p, verify = Except.ok (some p) ∧ p.sub = user ∧
        p.role = some "api") ∧
    ((onRequestPut req verify listResult putResult now).2 ≠ [] →
      ∃ p, verify = Except.ok (some p) ∧ p.sub = user ∧
        p.role = some "api" ∧
        (onRequestPut req verify listResult putResult now).2 =
          [Mutation.putKey (p.sub ++ "/" ++ id)]) ∧
    ((onRequestDelete req verify deleteResult).2 ≠ [] →
      ∃ p, verify = Except.ok (some p) ∧ p.sub = user ∧
        p.role = some "api" ∧
        (onRequestDelete req verify deleteResult).2 =
          [Mutation.deleteKey (p.sub ++ "/" ++ id)]) ∧
    (∀ p, verify = Except.ok (some p) →
      p.sub ≠ user ∨ p.role ≠ some "api" →
      (onRequestPut req verify listResult putResult now).2 = [] ∧
      (onRequestDelete req verify deleteResult).2 = [] ∧
      (∀ at' it' ct, req.accessToken = some at' → req.idToken = some it' →
        req.contentType = some ct → jsIncludes ct "application/json" = true →
        (onRequestPut req verify listResult putResult now).1.status = 403) ∧
      (∀ at' it', req.accessToken = some at' → req.idToken = some it' →
        (onRequestDelete req verify deleteResult).1.status = 403)) := by
  refine ⟨?_, ?_, ?_, ?_, ?_⟩
  · intro h
    obtain ⟨at', it', ct, u', i', p, objs, hat, hit, hct, hjson, hu', hv,
      hsub, hrole, _⟩ := put_200_shape req verify listResult putResult now h
    rw [hu] at hu'
    simp only [Option.some.injEq, List.cons.injEq, and_true] at hu'
    exact ⟨p, hv, hsub.trans hu'.1.symm, hrole⟩
  · intro h
    obtain ⟨at', it', u', i', p, hat, hit, hu', hv, hsub, hrole, _⟩ :=
      delete_200_shape req verify deleteResult h
    rw [hu] at hu'
    simp only [Option.some.injEq, List.cons.injEq, and_true] at hu'
    exact ⟨p, hv, hsub.trans hu'.1.symm, hrole⟩
  · intro h
    obtain ⟨at', it', ct, u', i', p, objs, hat, hit, hct, hjson, hu', hv,
      hsub, hrole, _, _, _, hlog⟩ :=
      put_mutates_shape req verify listResult putResult now h
    rw [hu] at hu'
    simp only [Option.some.injEq, List.cons.injEq, and_true] at hu'
    refine ⟨p, hv, hsub.trans hu'.1.symm, hrole, ?_⟩
    rw [hlog, hsub, hu'.2]
  · intro h
    obtain ⟨at', it', u', i', p, hat, hit, hu', hv, hsub, hrole, hlog⟩ :=
      delete_mutates_shape req verify deleteResult h
    rw [hu] at hu'
    simp only [Option.some.injEq, List.cons.injEq, and_true] at hu'
    refine ⟨p, hv, hsub.trans hu'.1.symm, hrole, ?_⟩
    rw [hlog, hsub, hu'.2]
  · intro p hv hbad
    refine ⟨?_, ?_, ?_, ?_⟩
    · by_contra h
      obtain ⟨_, _, _, u', i', p', _, _, _, _, _, hu', hv', hsub, hrole, _⟩ :=
        put_mutates_shape req verify listResult putResult now h
      rw [hu] at hu'
      simp only [Option.some.injEq, List.cons.injEq, and_true] at hu'
      rw [hv] at hv'
      obtain rfl : p = p' := Option.some.inj (Except.ok.inj hv')
      rcases hbad with hb | hb
      · exact hb (hsub.trans hu'.1.symm)
      · exact hb hrole
    · by_contra h
      obtain ⟨_, _, u', i', p', _, _, hu', hv', hsub, hrole, _⟩ :=
        delete_mutates_shape req verify deleteResult h
      rw [hu] at hu'
      simp only [Option.some.injEq, List.cons.injEq, and_true] at hu'
      rw [hv] at hv'
      obtain rfl : p = p' := Option.some.inj (Except.ok.inj hv')
      rcases hbad with hb | hb
      · exact hb (hsub.trans hu'.1.symm)
      · exact hb hrole
    · intro at' it' ct hat hit hct hjson
      by_cases hs : user = p.sub
      · rcases hbad with hb | hb
        · exact absurd hs.symm hb
        · simp [onRequestPut, hat, hit, hct, hjson, hu, hv, hs, hb,
            errorResponse]
      · simp [onRequestPut, hat, hit, hct, hjson, hu, hv, hs, errorResponse]
    · intro at' it' hat hit
      by_cases hs : p.sub = user
      · rcases hbad with hb | hb
        · exact absurd hs hb
        · simp [onRequestDelete, hat, hit, hu, hv, Option.map, Option.bind,
            hs, hb, errorResponse]
      · simp [onRequestDelete, hat, hit, hu, hv, Option.map, hs,
          errorResponse]

/-- C4 witness: a concrete request addressing `bob/chat1` with a verified
token for `alice` (role `api`) is answered 403 by both PUT and DELETE and
issues no store mutation. -/
theorem ownership_role_invariant_witness :
    (onRequestPut bobPathReq (Except.ok (some alicePayload)) (Except.ok [])
      (Except.ok ()) 0).1.status = 403 ∧
    (onRequestPut bobPathReq (Except.ok (some alicePayload)) (Except.ok [])
      (Except.ok ()) 0).2 = [] ∧
    (onRequestDelete bobPathReq (Except.ok (some alicePayload))
      (Except.ok ())).1.status = 403 ∧
    (onRequestDelete bobPathReq (Except.ok (some alicePayload))
      (Except.ok ())).2 = [] := by
  have h := ownership_role_invariant bobPathReq
    (Except.ok (some alicePayload)) (Except.ok []) (Except.ok ())
    (Except.ok ()) 0 "bob" "chat1" rfl
  have h5 := h.2.2.2.2 alicePayload rfl (Or.inl (by decide))
  exact ⟨h5.2.2.1 "tokA" "tokI" "application/json" rfl rfl rfl (by decide),
    h5.1, h5.2.2.2 "tokA" "tokI" rfl rfl, h5.2.1⟩

set_option maxRecDepth 40000 in
/-- C1 counterexample: with every cookie, content-type, path, token,
subject and role check passing, a Create finding exactly 500 existing
objects (all old) is NOT rejected — it answers 200, not the claimed 403 —
and a Create finding exactly 10 objects uploaded within the trailing 24
hours (10 total) also answers 200, not the claimed 429: the strict `>`
comparisons pass pre-write counts of exactly 500 and 10. -/
theorem quota_boundary_counterexample :
    (onRequestPut aliceReq (Except.ok (some alicePayload))
      (Except.ok fullListing) (Except.ok ()) sampleNow).1.status = 200 ∧
    (onRequestPut aliceReq (Except.ok (some alicePayload))
      (Except.ok tenRecent) (Except.ok ()) sampleNow).1.status = 200 := by
  constructor <;> decide

/-- C1 (amended): the quota checks compare the pre-write listing with
strict `>`: more than 500 objects → 403 Forbidden (total limit); otherwise
more than 10 objects in the trailing 24 hours → 429 TooManyRequests; at
counts of exactly 500 (total) and 10 (recent) the write still proceeds, so
the writes finding 500 existing objects or 10 recent ones — the 501st and
the 11th — are the last ones permitted. -/
theorem quota_checks_use_strict_gt (req : GatewayRequest)
    (verify : Except String (Option Payload))
    (listResult : Except String (List R2Object))
    (putResult : Except String Unit) (now : Int)
    (at' it' ct user id : String) (payload : Payload)
    (objects : List R2Object) (hat : req.accessToken = some at')
    (hit : req.idToken = some it') (hct : req.contentType = some ct)
    (hjson : jsIncludes ct "application/json" = true)
    (hu : req.userId = some [user, id])
    (hv : verify = Except.ok (some payload)) (hsub : payload.sub = user)
    (hrole : payload.role = some "api")
    (hlist : listResult = Except.ok objects) :
    (objects.length > 500 →
      onRequestPut req verify listResult putResult now =
        (errorResponse 403 "Exceeded total share limit", [])) ∧
    (objects.length ≤ 500 →
      (objects.filter fun o => now - o.uploaded < oneDayMS).length > 10 →
      onRequestPut req verify listResult putResult now =
        (errorResponse 429 "Too many shares in a 24-hour period", [])) ∧
    (objects.length ≤ 500 →
      (objects.filter fun o => now - o.uploaded < oneDayMS).length ≤ 10 →
      (onRequestPut req verify listResult putResult now).2 =
        [Mutation.putKey (user ++ "/" ++ id)] ∧
      (putResult = Except.ok () →
        (onRequestPut req verify listResult putResult now).1.status =
          200)) := by
  refine ⟨?_, ?_, ?_⟩
  · intro h500
    simp [onRequestPut, hat, hit, hct, hjson, hu, hv, hsub, hrole, hlist,
      h500]
  · intro h500 h10
    simp [onRequestPut, hat, hit, hct, hjson, hu, hv, hsub, hrole, hlist,
      Nat.not_lt.mpr h500, h10]
  · intro h500 h10
    constructor
    · rcases hput : putResult with e | u
      · simp [onRequestPut, hat, hit, hct, hjson, hu, hv, hsub, hrole,
          hlist, Nat.not_lt.mpr h500, Nat.not_lt.mpr h10, hput]
      · simp [onRequestPut, hat, hit, hct, hjson, hu, hv, hsub, hrole,
          hlist, Nat.not_lt.mpr h500, Nat.not_lt.mpr h10, hput]
    · intro hput
      simp [onRequestPut, hat, hit, hct, hjson, hu, hv, hsub, hrole, hlist,
        Nat.not_lt.mpr h500, Nat.not_lt.mpr h10, hput]

set_option maxRecDepth 40000 in
/-- C1 amended-claim witness: at the concrete 500-object listing (all
outside the 24-hour window) the write is still permitted: the mutation is
issued and the response is 200. -/
theorem quota_checks_use_strict_gt_witness :
    (onRequestPut aliceReq (Except.ok (some alicePayload))
      (Except.ok fullListing) (Except.ok ()) sampleNow).2 =
      [Mutation.putKey ("alice" ++ "/" ++ "chat1")] ∧
    (onRequestPut aliceReq (Except.ok (some alicePayload))
      (Except.ok fullListing) (Except.ok ()) sampleNow).1.status = 200 := by
  have h := quota_checks_use_strict_gt aliceReq
    (Except.ok (some alicePayload)) (Except.ok fullListing) (Except.ok ())
    sampleNow "tokA" "tokI" "application/json" "alice" "chat1" alicePayload
    fullListing rfl rfl rfl (by decide) rfl rfl rfl rfl rfl
  have h3 := h.2.2 (by decide) (by decide)
  exact ⟨h3.1, h3.2 rfl⟩

/-- C3 counterexample: at a concrete well-formed request whose token
verification raises an exception (message "jwt malformed"), Create and
Delete behave identically: BOTH catch it and answer 400 BadRequest with
the underlying message — Create does not map it to Forbidden, so the two
operations do not differ in how a verification exception is mapped. -/
theorem verify_exception_counterexample :
    (onRequestPut aliceReq (Except.error "jwt malformed") (Except.ok [])
      (Except.ok ()) 0).1 = errorResponse 400 "jwt malformed" ∧
    (onRequestDelete aliceReq (Except.error "jwt malformed")
      (Except.ok ())).1 = errorResponse 400 "jwt malformed" := by
  constructor <;> decide

/-- C3 (amended): Create and Delete map a verification exception the same
way — both catch it and answer 400 BadRequest carrying the underlying
message; the asymmetry between the two lies instead in the null-payload
outcome, where Create answers 403 "Invalid Access Token" through its
explicit null check while Delete's optional chaining lands in 403
"Access Token does not match username". -/
theorem verify_failure_mapping (req : GatewayRequest)
    (listResult : Except String (List R2Object))
    (putResult deleteResult : Except String Unit) (now : Int)
    (at' it' ct user id : String) (hat : req.accessToken = some at')
    (hit : req.idToken = some it') (hct : req.contentType = some ct)
    (hjson : jsIncludes ct "application/json" = true)
    (hu : req.userId = some [user, id]) :
    (∀ e : String,
      (onRequestPut req (Except.error e) listResult putResult now).1 =
        errorResponse 400 e ∧
      (onRequestDelete req (Except.error e) deleteResult).1 =
        errorResponse 400 e) ∧
    ((onRequestPut req (Except.ok none) listResult putResult now).1 =
      errorResponse 403 "Invalid Access Token" ∧
     (onRequestDelete req (Except.ok none) deleteResult).1 =
      errorResponse 403 "Access Token does not match username") := by
  refine ⟨fun e => ⟨?_, ?_⟩, ?_, ?_⟩
  · simp [onRequestPut, hat, hit, hct, hjson, hu]
  · simp [onRequestDelete, hat, hit, hu]
  · simp [onRequestPut, hat, hit, hct, hjson, hu]
  · simp [onRequestDelete, hat, hit, hu, Option.map, errorResponse]

/-- C3 amended-claim witness: the concrete exception "boom" yields 400
from both operations, and the concrete null payload yields the two
distinct 403 responses. -/
theorem verify_failure_mapping_witness :
    ((onRequestPut aliceReq (Except.error "boom") (Except.ok [])
        (Except.ok ()) 0).1 = errorResponse 400 "boom" ∧
     (onRequestDelete aliceReq (Except.error "boom") (Except.ok ())).1 =
        errorResponse 400 "boom") ∧
    ((onRequestPut aliceReq (Except.ok none) (Except.ok [])
        (Except.ok ()) 0).1 = errorResponse 403 "Invalid Access Token" ∧
     (onRequestDelete aliceReq (Except.ok none) (Except.ok ())).1 =
        errorResponse 403 "Access Token does not match username") := by
  have h := verify_failure_mapping aliceReq (Except.ok []) (Except.ok ())
    (Except.ok ()) 0 "tokA" "tokI" "application/json" "alice" "chat1"
    rfl rfl rfl (by decide) rfl
  exact ⟨h.1 "boom", h.2⟩

/-- C5 counterexample: a PUT and a DELETE whose resource key has only one
segment but whose cookies are missing are answered 403 "Missing Access
Token", not the claimed 400 BadRequest — the cookie checks run before the
path-shape check. -/
theorem path_shape_counterexample :
    (onRequestPut bareBadPathReq (Except.ok none) (Except.ok [])
      (Except.ok ()) 0).1 = errorResponse 403 "Missing Access Token" ∧
    (onRequestPut bareBadPathReq (Except.ok none) (Except.ok [])
      (Except.ok ()) 0).1.status ≠ 400 ∧
    (onRequestDelete bareBadPathReq (Except.ok none) (Except.ok ())).1 =
      errorResponse 403 "Missing Access Token" ∧
    (onRequestDelete bareBadPathReq (Except.ok none)
      (Except.ok ())).1.status ≠ 400 := by
  refine ⟨by decide, by decide, by decide, by decide⟩

/-- C5 (amended): a resource key that is not exactly a two-segment
`(owner, id)` path is answered 400 BadRequest — unconditionally for GET,
while for PUT only once both token cookies are present and the
content-type declares JSON, and for DELETE only once both token cookies
are present, since those checks run first. -/
theorem bad_path_shape_badrequest
    (badPath : Option (List String))
    (hbad : ∀ user id : String, badPath ≠ some [user, id]) :
    (∀ getResult : Except String (Option StoredObject),
      onRequestGet badPath getResult =
        (errorResponse 400
          "Expected share URL of the form /api/share/{user}/{id}", [])) ∧
    (∀ (req : GatewayRequest) (verify : Except String (Option Payload))
       (listResult : Except String (List R2Object))
       (putResult : Except String Unit) (now : Int) (at' it' ct : String),
      req.accessToken = some at' → req.idToken = some it' →
      req.contentType = some ct → jsIncludes ct "application/json" = true →
      req.userId = badPath →
      onRequestPut req verify listResult putResult now =
        (errorResponse 400
          "Expected share URL of the form /api/share/{user}/{id}", [])) ∧
    (∀ (req : GatewayRequest) (verify : Except String (Option Payload))
       (deleteResult : Except String Unit) (at' it' : String),
      req.accessToken = some at' → req.idToken = some it' →
      req.userId = badPath →
      onRequestDelete req verify deleteResult =
        (errorResponse 400
          "Expected share URL of the form /api/share/{user}/{id}", [])) := by
  refine ⟨?_, ?_, ?_⟩
  · intro getResult
    unfold onRequestGet
    rcases badPath with _ | (_ | ⟨u, _ | ⟨i, _ | ⟨v, l⟩⟩⟩)
    · rfl
    · rfl
    · rfl
    · exact absurd rfl (hbad u i)
    · rfl
  · intro req verify listResult putResult now at' it' ct hat hit hct hjson hu
    rcases hshape : badPath with _ | (_ | ⟨u, _ | ⟨i, _ | ⟨v, l⟩⟩⟩)
    · simp [onRequestPut, hat, hit, hct, hjson, hu, hshape]
    · simp [onRequestPut, hat, hit, hct, hjson, hu, hshape]
    · simp [onRequestPut, hat, hit, hct, hjson, hu, hshape]
    · exact absurd hshape (hbad u i)
    · simp [onRequestPut, hat, hit, hct, hjson, hu, hshape]
  · intro req verify deleteResult at' it' hat hit hu
    rcases hshape : badPath with _ | (_ | ⟨u, _ | ⟨i, _ | ⟨v, l⟩⟩⟩)
    · simp [onRequestDelete, hat, hit, hu, hshape]
    · simp [onRequestDelete, hat, hit, hu, hshape]
    · simp [onRequestDelete, hat, hit, hu, hshape]
    · exact absurd hshape (hbad u i)
    · simp [onRequestDelete, hat, hit, hu, hshape]

/-- C5 amended-claim witness: the concrete one-segment key `["alice"]`
draws 400 from GET unconditionally and from PUT/DELETE once the cookies
(and content-type, for PUT) are in place. -/
theorem bad_path_shape_badrequest_witness :
    onRequestGet (some ["alice"]) (Except.ok none) =
      (errorResponse 400
        "Expected share URL of the form /api/share/{user}/{id}", []) ∧
    onRequestPut authedBadPathReq (Except.ok none) (Except.ok [])
        (Except.ok ()) 0 =
      (errorResponse 400
        "Expected share URL of the form /api/share/{user}/{id}", []) ∧
    onRequestDelete authedBadPathReq (Except.ok none) (Except.ok ()) =
      (errorResponse 400
        "Expected share URL of the form /api/share/{user}/{id}", []) := by
  have h := bad_path_shape_badrequest (some ["alice"])
    (by intro user id h; simp at h)
  exact ⟨h.1 (Except.ok none),
    h.2.1 authedBadPathReq (Except.ok none) (Except.ok []) (Except.ok ()) 0
      "tokA" "tokI" "application/json" rfl rfl rfl (by decide) rfl,
    h.2.2 authedBadPathReq (Except.ok none) (Except.ok ()) "tokA" "tokI"
      rfl rfl rfl⟩

end ChatCraft
